import Mathlib

/-!
# Verification of the disgm authenticated real-time event router

Shallow embedding of the core of the `disgm` repository (Go): the token
authentication gate (`TokenMiddleware`), the connection registry
(`clients` map), the websocket connection lifecycle
(`NewWebSocket` / `handleMessages` / `RegisterWebSocket`) and the
event classifier and fan-out (`registerDiscordHandlers` / `EventCall`).

External collaborators (the fiber HTTP stack, the websocket transport and
the discordgo session) are modelled as oracles: the Authorization header is
an input string, the token store's `Load()` result is an input
`Option (Except Unit Table)` (`none` = no store configured), a connection's
write outcome is a function `Conn → Option String` (`none` = write succeeds,
`some e` = write fails with error `e`), and the messages a connection's
`ReadMessage` yields before its terminating read error are an input list.
-/

namespace Disgm

/-- Connection handles (`*websocket.Conn` pointers) are opaque; model them as
naturals compared by identity. -/
abbrev Conn := Nat

abbrev WorkspaceID := String

/-! ## Authorization header splitting

`TokenMiddleware` does `strings.Split(token, " ")`.  Go's `strings.Split`
with a one-character separator splits on every occurrence of the separator
and keeps empty fields; the result is never empty (`Split("", " ") = [""]`).
`splitSpaces` reproduces that on the character list. -/

def splitSpaces : List Char → List (List Char)
  | [] => [[]]
  | ch :: rest =>
      if ch = ' ' then [] :: splitSpaces rest
      else
        match splitSpaces rest with
        | [] => [[ch]]
        | w :: ws => (ch :: w) :: ws

/-- `strings.Split(header, " ")` on a Lean `String`. -/
def splitAuth (header : String) : List String :=
  (splitSpaces header.data).map (fun cs => String.mk cs)

/-! ## Token middleware

Both observed variants of `TokenMiddleware` are modelled.  The outcome of the
handler is either an unauthorized response, a call to the next handler with
the resolved ID bound into the request locals, or a runtime panic (Go's
out-of-range slice index `splToken[1]`, reached when the split header has a
single field). -/

/-- The store's `Load()` result: `none` models a nil `TokenStore`;
`some (.error ())` models a load error; `some (.ok tbl)` the loaded
credential table (a Go `map[string]string`, modelled as an association
list with unique keys). -/
abbrev TokenStoreM := Option (Except Unit (List (String × String)))

inductive MwResult where
  | unauthorized
  | next (id : String)
  | panic
  deriving DecidableEq, Repr

/-- Observable outcome of one `TokenMiddleware` call: the handler result,
the request locals it set (`c.Locals("ID", …)`), and whether the store's
`Load()` was invoked. -/
structure MwOut where
  res : MwResult
  locals : List (String × String)
  loadCalled : Bool
  deriving DecidableEq, Repr

/-- `TokenMiddleware`, direct-lookup variant:

```go
token := c.Get("Authorization")            // "" when the header is absent
splToken := strings.Split(token, " ")
if splToken[0] == "Bearer" {
  if disgm.opt.TokenStore != nil {
    tokens, err := disgm.opt.TokenStore.Load()
    if err != nil { return c.Status(401).SendString("Unauthorized") }
    if id, ok := tokens[splToken[1]]; ok {  // splToken[1] may be out of range!
      c.Locals("ID", id); return c.Next()
    }
  }
}
return c.Status(401).SendString("Unauthorized")
```

The map index `tokens[splToken[1]]` evaluates `splToken[1]` first; when the
split header has one field this is an out-of-range panic, modelled as
`MwResult.panic`. -/
def tokenMiddleware (store : TokenStoreM) (header : String) : MwOut :=
  let splToken := splitAuth header
  if splToken.getD 0 "" == "Bearer" then
    match store with
    | none => ⟨.unauthorized, [], false⟩
    | some (.error _) => ⟨.unauthorized, [], true⟩
    | some (.ok tokens) =>
        match splToken.get? 1 with
        | none => ⟨.panic, [], true⟩
        | some tok =>
            match tokens.find? (fun kv => kv.1 == tok) with
            | some kv => ⟨.next kv.2, [("ID", kv.2)], true⟩
            | none => ⟨.unauthorized, [], true⟩
  else ⟨.unauthorized, [], false⟩

/-- `TokenMiddleware`, reverse-lookup variant: instead of a direct map index
it ranges over the table and matches on the *value*:

```go
for k, v := range tokens {
  if v == splToken[1] { c.Locals("ID", k); return c.Next() }
}
```

`splToken[1]` is evaluated inside the loop body, so with an empty table the
loop never runs and the out-of-range panic is not reached. -/
def tokenMiddlewareRev (store : TokenStoreM) (header : String) : MwOut :=
  let splToken := splitAuth header
  if splToken.getD 0 "" == "Bearer" then
    match store with
    | none => ⟨.unauthorized, [], false⟩
    | some (.error _) => ⟨.unauthorized, [], true⟩
    | some (.ok tokens) =>
        match tokens with
        | [] => ⟨.unauthorized, [], true⟩
        | _ :: _ =>
            match splToken.get? 1 with
            | none => ⟨.panic, [], true⟩
            | some tok =>
                match tokens.find? (fun kv => kv.2 == tok) with
                | some kv => ⟨.next kv.1, [("ID", kv.1)], true⟩
                | none => ⟨.unauthorized, [], true⟩
  else ⟨.unauthorized, [], false⟩

/-- The middleware rejected the request: unauthorized response, nothing bound
into the request locals. -/
def rejected (o : MwOut) : Prop :=
  o.res = MwResult.unauthorized ∧ o.locals = []

/-! ## Connection registry

`var clients = make(map[*websocket.Conn]string)` — the process-wide table
from connection handle to the workspace ID it was authenticated for.
Modelled as an association list whose list order stands for the (otherwise
unspecified) iteration order of the Go map; map semantics (one binding per
key) are built into insert/delete. -/

abbrev Registry := List (Conn × WorkspaceID)

/-- `clients[conn] = id` — map insert: replaces any existing binding for the
key. -/
def registryInsert (reg : Registry) (c : Conn) (id : WorkspaceID) : Registry :=
  (c, id) :: reg.filter (fun en => !(en.1 == c))

/-- `delete(clients, conn)` — map delete: removes the binding for the key. -/
def registryDelete (reg : Registry) (c : Conn) : Registry :=
  reg.filter (fun en => !(en.1 == c))

/-- `clients[conn]` read. -/
def registryLookup (reg : Registry) (c : Conn) : Option WorkspaceID :=
  (reg.find? (fun en => en.1 == c)).map (fun en => en.2)

/-! ## Event payloads

`json.Unmarshal(e.RawData, &data)` decodes the raw event bytes into a
`map[string]interface{}`.  The decoder is an external collaborator, so an
event carries the *result* of that decode: `none` for a decode error, or the
decoded field bag.  Only the dynamic type test `.(string)` is performed on
field values, so values are classified by their JSON type, with a string's
content kept. -/

inductive JVal where
  | jstr (s : String)
  | jnum (n : Int)
  | jbool (b : Bool)
  | jnull
  | jother
  deriving DecidableEq, Repr

/-- The Go type assertion `v.(string)`. -/
def JVal.asString : JVal → Option String
  | .jstr s => some s
  | _ => none

abbrev Fields := List (String × JVal)

/-- `data["guild_id"]` — map read on the decoded field bag. -/
def lookupField (fs : Fields) (k : String) : Option JVal :=
  (fs.find? (fun kv => kv.1 == k)).map (fun kv => kv.2)

/-- `guildID, ok := data["guild_id"].(string)` -/
def extractGuildId (fs : Fields) : Option String :=
  (lookupField fs "guild_id").bind JVal.asString

/-- One inbound platform event `{Type, RawData}`; `rawData` is the decode
result of `RawData` (see above). -/
structure InEvent where
  type : String
  rawData : Option Fields
  deriving DecidableEq, Repr

/-! ## EventCall -/

/-- A message written to a connection: the plain-text greeting, or the
JSON-marshalled `Event{Name, Data}` envelope.  (`json.Marshal` of a decoded
`map[string]interface{}` cannot fail, so the marshal-error branch of
`EventCall` is dead in this model.) -/
inductive OutMsg where
  | text (s : String)
  | envelope (name : String) (data : Fields)
  deriving DecidableEq, Repr

/-- One attempted `conn.WriteMessage` during fan-out. -/
structure WriteRec where
  conn : Conn
  msg : OutMsg
  deriving DecidableEq, Repr

/-- The loop of `EventCall`: scan the clients map; on the first entry whose
workspace ID equals `id`, marshal the envelope, write it to that connection
and return the write's error (Go `return client.WriteMessage(...)`); if no
entry matches, return nil.  `writeRes c` is the outcome of a write to `c`
(`none` = success). -/
def eventCallLoop (writeRes : Conn → Option String) (cls : Registry)
    (id name : String) (data : Fields) : List WriteRec × Option String :=
  match cls with
  | [] => ([], none)
  | (c, gid) :: rest =>
      if gid == id then ([⟨c, OutMsg.envelope name data⟩], writeRes c)
      else eventCallLoop writeRes rest id name data

/-- `EventCall(id, name, data)`: returns the (unchanged) clients map, the
writes attempted, and the returned error. -/
def eventCall (writeRes : Conn → Option String) (reg : Registry)
    (id name : String) (data : Fields) :
    Registry × List WriteRec × Option String :=
  (reg, eventCallLoop writeRes reg id name data)

/-! ## Event classifier (registerDiscordHandlers) -/

/-- The fixed allow-list from `registerDiscordHandlers`. -/
def allowedEvents : List String :=
  ["GUILD_UPDATE",
   "VOICE_STATE_UPDATE",
   "GUILD_MEMBER_ADD",
   "GUILD_MEMBER_UPDATE",
   "GUILD_MEMBER_REMOVE",
   "GUILD_BAN_ADD",
   "GUILD_BAN_REMOVE",
   "CHANNEL_CREATE",
   "CHANNEL_UPDATE",
   "CHANNEL_DELETE",
   "GUILD_ROLE_CREATE",
   "GUILD_ROLE_UPDATE",
   "GUILD_ROLE_DELETE",
   "MESSAGE_CREATE",
   "MESSAGE_UPDATE",
   "MESSAGE_DELETE",
   "MESSAGE_REACTION_ADD",
   "MESSAGE_REACTION_REMOVE",
   "MESSAGE_REACTION_REMOVE_ALL",
   "INTERACTION_CREATE"]

/-- Outcome of the per-event handler: kind not in the allow-list (handler
falls through, nothing else happens); decode error (logged, `return`);
`guild_id` absent or non-string (logged, falls through); or a dispatch via
`EventCall`, recording the attempted writes and the (discarded) error. -/
inductive DispatchOutcome where
  | notAllowed
  | parseError
  | noGuildId
  | dispatched (writes : List WriteRec) (err : Option String)
  deriving DecidableEq, Repr

/-- Writes delivered by an outcome. -/
def DispatchOutcome.writes : DispatchOutcome → List WriteRec
  | .dispatched ws _ => ws
  | _ => []

/-- Whether the outcome logs/reports the drop (`log.Printf` on decode error,
`fmt.Println("guild_id not found")`). -/
def DispatchOutcome.reported : DispatchOutcome → Bool
  | .parseError => true
  | .noGuildId => true
  | _ => false

/-- The handler registered by `registerDiscordHandlers`, for one event. -/
def handleEvent (writeRes : Conn → Option String) (reg : Registry)
    (e : InEvent) : DispatchOutcome :=
  if allowedEvents.contains e.type then
    match e.rawData with
    | none => .parseError
    | some data =>
        match extractGuildId data with
        | some guildID =>
            let r := eventCall writeRes reg guildID e.type data
            .dispatched r.2.1 r.2.2
        | none => .noGuildId
  else .notAllowed

/-- The dispatch task processes the platform stream one event at a time; a
dropped event never stops the task, and dispatch does not mutate the
registry, so the stream handler is a map. -/
def dispatchAll (writeRes : Conn → Option String) (reg : Registry)
    (es : List InEvent) : List DispatchOutcome :=
  es.map (handleEvent writeRes reg)

/-! ## Connection lifecycle (NewWebSocket / handleMessages / RegisterWebSocket)

The session of one upgraded connection, from the `/ws` handler's view:

- `NewWebSocket`: `defer conn.Close()`; `clients[conn] = id`; write the
  greeting `"You are connected."`; on write error return the error (the
  deferred close still runs).  Note the deferred close fires when
  `NewWebSocket` *returns*, on the success path too.
- `RegisterWebSocket`'s handler: on `NewWebSocket` error, log and return —
  `handleMessages` is never called, so the registry entry is not removed.
- `handleMessages`: `defer { conn.Close(); delete(clients, conn) }`; loop
  `ReadMessage` and pass each message to the handler func until a read
  error breaks the loop.

`reads` is the list of messages `ReadMessage` yields before its terminating
error (every session's read sequence ends in an error, clean close
included). -/

inductive TraceEv where
  | register (c : Conn) (id : WorkspaceID)
  | write (c : Conn) (m : OutMsg) (ok : Bool)
  | read (c : Conn) (m : String)
  | handle (m : String)
  | readErr (c : Conn)
  | close (c : Conn)
  | deregister (c : Conn)
  deriving DecidableEq, Repr

/-- Run one connection's session; returns the final registry and the ordered
trace of lifecycle actions. -/
def runWsSession (writeRes : Conn → Option String) (reads : List String)
    (reg : Registry) (c : Conn) (id : WorkspaceID) : Registry × List TraceEv :=
  let reg1 := registryInsert reg c id
  let greetOk := (writeRes c).isNone
  let pre := [TraceEv.register c id,
              TraceEv.write c (OutMsg.text "You are connected.") greetOk,
              TraceEv.close c]
  if greetOk then
    (registryDelete reg1 c,
     pre ++ (reads.map (fun m => [TraceEv.read c m, TraceEv.handle m])).flatten
         ++ [TraceEv.readErr c, TraceEv.close c, TraceEv.deregister c])
  else
    (reg1, pre)

/-- Greeting write events in a trace (the greeting is the only plain-text
write; relayed events are envelopes). -/
def isGreetWrite : TraceEv → Bool
  | .write _ (.text _) _ => true
  | _ => false

/-- Successful client-message reads in a trace. -/
def isReadEv : TraceEv → Bool
  | .read _ _ => true
  | _ => false

/-- Dispatches to the injected message-handler func in a trace. -/
def isHandleEv : TraceEv → Bool
  | .handle _ => true
  | _ => false

/-! ## Theorems -/

/-- C10: with a nil `TokenStore` every request is rejected as unauthorized,
whatever the Authorization header, nothing is bound into the locals, and the
store's `Load()` is never invoked — in both observed middleware variants. -/
theorem c10_nil_store_rejects (header : String) :
    (tokenMiddleware none header).res = MwResult.unauthorized ∧
    (tokenMiddleware none header).locals = [] ∧
    (tokenMiddleware none header).loadCalled = false ∧
    (tokenMiddlewareRev none header).res = MwResult.unauthorized ∧
    (tokenMiddlewareRev none header).locals = [] ∧
    (tokenMiddlewareRev none header).loadCalled = false := by
  unfold tokenMiddleware tokenMiddlewareRev
  by_cases h : (splitAuth header).getD 0 "" == "Bearer" <;> simp [h]

/-- C2 (code bug): with a configured store that loads successfully, the
Authorization header `"Bearer"` — scheme present but no space-separated
token — drives both middleware variants into the out-of-range slice index
`splToken[1]` (a Go runtime panic), after having consulted the store; the
claimed behavior (terminate normally with an unauthorized response, without
consulting the store) does not hold. -/
theorem c2_bare_bearer_panics :
    (tokenMiddleware (some (.ok [("tok-1", "guild-42")])) "Bearer").res
        = MwResult.panic ∧
    (tokenMiddleware (some (.ok [("tok-1", "guild-42")])) "Bearer").loadCalled
        = true ∧
    (tokenMiddlewareRev (some (.ok [("guild-42", "tok-1")])) "Bearer").res
        = MwResult.panic ∧
    (tokenMiddlewareRev (some (.ok [("guild-42", "tok-1")])) "Bearer").loadCalled
        = true := by
  decide

/-- C8 (code bug): when the greeting write to a freshly authenticated
connection fails, the session closes the connection (`NewWebSocket`'s
deferred `Close`) but never deregisters it — `handleMessages`, which owns
`delete(clients, conn)`, is not called on that path — so the closed
connection stays in the registry and a subsequent dispatch for its workspace
still writes to it. -/
theorem c8_greet_failure_stale_entry :
    (registryLookup (runWsSession (fun _ => some "write failed") [] [] 7
        "guild-42").1 7 = some "guild-42") ∧
    TraceEv.close 7 ∈ (runWsSession (fun _ => some "write failed") [] [] 7
        "guild-42").2 ∧
    TraceEv.deregister 7 ∉ (runWsSession (fun _ => some "write failed") [] [] 7
        "guild-42").2 ∧
    (eventCall (fun _ => none)
        (runWsSession (fun _ => some "write failed") [] [] 7 "guild-42").1
        "guild-42" "MESSAGE_CREATE" []).2.1
      = [⟨7, OutMsg.envelope "MESSAGE_CREATE" []⟩] := by
  decide

/-- Helper: the `EventCall` loop writes the envelope to the first registry
entry whose workspace ID matches, and returns that write's error; with no
match it writes nothing and returns nil. -/
theorem eventCallLoop_spec (writeRes : Conn → Option String) (cls : Registry)
    (id name : String) (data : Fields) :
    eventCallLoop writeRes cls id name data =
      (match cls.find? (fun en => en.2 == id) with
       | some en => ([⟨en.1, OutMsg.envelope name data⟩], writeRes en.1)
       | none => ([], none)) := by
  induction cls with
  | nil => rfl
  | cons hd tl ih =>
      obtain ⟨c, gid⟩ := hd
      by_cases h : gid == id
      · simp [eventCallLoop, h, List.find?_cons_of_pos]
      · rw [eventCallLoop, if_neg (by simp_all), ih,
          List.find?_cons_of_neg _ (by simp_all)]

/-- C6: per dispatch at most one connection is written; the write goes to
the first registry entry (in scan order) whose workspace ID equals the
routing key, carries the `{name, data}` envelope, and the scan stops there;
with no matching entry nothing is written and `EventCall` returns no
error. -/
theorem c6_first_match_only (writeRes : Conn → Option String) (reg : Registry)
    (id name : String) (data : Fields) :
    (eventCall writeRes reg id name data).2.1.length ≤ 1 ∧
    (eventCall writeRes reg id name data).2.1 =
      (match reg.find? (fun en => en.2 == id) with
       | some en => [⟨en.1, OutMsg.envelope name data⟩]
       | none => []) ∧
    (eventCall writeRes reg id name data).2.2 =
      (match reg.find? (fun en => en.2 == id) with
       | some en => writeRes en.1
       | none => none) := by
  unfold eventCall
  rw [eventCallLoop_spec]
  cases reg.find? (fun en => en.2 == id) <;> simp

/-- C7 (frame effect): when the write to the matched connection fails,
`EventCall` returns that very failure as its error, and the registry is left
untouched by the dispatch — the failed connection's entry, like every other
entry, is still present. -/
theorem c7_write_failure_keeps_registry (writeRes : Conn → Option String)
    (reg : Registry) (id name : String) (data : Fields) (c : Conn)
    (wid : WorkspaceID) (err : String)
    (hfind : reg.find? (fun en => en.2 == id) = some (c, wid))
    (hfail : writeRes c = some err) :
    (eventCall writeRes reg id name data).2.2 = some err ∧
    (eventCall writeRes reg id name data).1 = reg ∧
    (c, wid) ∈ (eventCall writeRes reg id name data).1 := by
  refine ⟨?_, rfl, List.mem_of_find?_eq_some hfind⟩
  unfold eventCall
  rw [eventCallLoop_spec, hfind]
  exact hfail

/-- Witness for C7 at a concrete registry and failing write. -/
theorem c7_write_failure_keeps_registry_witness :
    (eventCall (fun _ => some "broken pipe") [(3, "guild-1"), (7, "guild-42")]
        "guild-42" "MESSAGE_CREATE" []).2.2 = some "broken pipe" ∧
    (eventCall (fun _ => some "broken pipe") [(3, "guild-1"), (7, "guild-42")]
        "guild-42" "MESSAGE_CREATE" []).1 = [(3, "guild-1"), (7, "guild-42")] ∧
    (7, "guild-42") ∈ (eventCall (fun _ => some "broken pipe")
        [(3, "guild-1"), (7, "guild-42")] "guild-42" "MESSAGE_CREATE" []).1 :=
  c7_write_failure_keeps_registry (fun _ => some "broken pipe")
    [(3, "guild-1"), (7, "guild-42")] "guild-42" "MESSAGE_CREATE" [] 7
    "guild-42" "broken pipe" (by decide) rfl

/-- C4: an inbound event is processed further (payload decode, routing-key
extraction, fan-out attempt) exactly when its kind is one of the twenty
allow-listed kinds; every other kind is discarded with no further processing
and no delivery. -/
theorem c4_allowlist_filter (writeRes : Conn → Option String) (reg : Registry)
    (e : InEvent) :
    (e.type ∈ ["GUILD_UPDATE", "VOICE_STATE_UPDATE", "GUILD_MEMBER_ADD",
        "GUILD_MEMBER_UPDATE", "GUILD_MEMBER_REMOVE", "GUILD_BAN_ADD",
        "GUILD_BAN_REMOVE", "CHANNEL_CREATE", "CHANNEL_UPDATE",
        "CHANNEL_DELETE", "GUILD_ROLE_CREATE", "GUILD_ROLE_UPDATE",
        "GUILD_ROLE_DELETE", "MESSAGE_CREATE", "MESSAGE_UPDATE",
        "MESSAGE_DELETE", "MESSAGE_REACTION_ADD", "MESSAGE_REACTION_REMOVE",
        "MESSAGE_REACTION_REMOVE_ALL", "INTERACTION_CREATE"] →
      handleEvent writeRes reg e ≠ DispatchOutcome.notAllowed) ∧
    (e.type ∉ ["GUILD_UPDATE", "VOICE_STATE_UPDATE", "GUILD_MEMBER_ADD",
        "GUILD_MEMBER_UPDATE", "GUILD_MEMBER_REMOVE", "GUILD_BAN_ADD",
        "GUILD_BAN_REMOVE", "CHANNEL_CREATE", "CHANNEL_UPDATE",
        "CHANNEL_DELETE", "GUILD_ROLE_CREATE", "GUILD_ROLE_UPDATE",
        "GUILD_ROLE_DELETE", "MESSAGE_CREATE", "MESSAGE_UPDATE",
        "MESSAGE_DELETE", "MESSAGE_REACTION_ADD", "MESSAGE_REACTION_REMOVE",
        "MESSAGE_REACTION_REMOVE_ALL", "INTERACTION_CREATE"] →
      handleEvent writeRes reg e = DispatchOutcome.notAllowed ∧
      (handleEvent writeRes reg e).writes = []) := by
  have hmem : allowedEvents.contains e.type = true ↔
      e.type ∈ allowedEvents := by
    exact List.elem_iff
  constructor
  · intro hin
    unfold handleEvent
    rw [if_pos (hmem.mpr hin)]
    cases e.rawData with
    | none => simp
    | some d => cases h : extractGuildId d <;> simp [h]
  · intro hout
    unfold handleEvent
    rw [if_neg (fun hc => hout (hmem.mp hc))]
    exact ⟨rfl, rfl⟩

/-- Witness for C4 at two concrete events: a non-allow-listed kind is
discarded with no writes. -/
theorem c4_allowlist_filter_witness :
    handleEvent (fun _ => none) [(7, "guild-42")]
        ⟨"TYPING_START", some [("guild_id", JVal.jstr "guild-42")]⟩
      = DispatchOutcome.notAllowed ∧
    (handleEvent (fun _ => none) [(7, "guild-42")]
        ⟨"TYPING_START", some [("guild_id", JVal.jstr "guild-42")]⟩).writes
      = [] :=
  (c4_allowlist_filter (fun _ => none) [(7, "guild-42")]
      ⟨"TYPING_START", some [("guild_id", JVal.jstr "guild-42")]⟩).2
    (by decide)

/-- C5: an allow-listed event whose raw payload fails to decode, or whose
decoded fields lack a string `guild_id`, is dropped — no connection is
written — the drop is reported, and the dispatch task goes on to process the
following events of the stream unchanged. -/
theorem c5_bad_payload_dropped (writeRes : Conn → Option String)
    (reg : Registry) (e : InEvent)
    (hallow : e.type ∈ allowedEvents)
    (hbad : e.rawData = none ∨
      ∃ d, e.rawData = some d ∧ extractGuildId d = none) :
    (handleEvent writeRes reg e).writes = [] ∧
    (handleEvent writeRes reg e).reported = true ∧
    (∀ rest, dispatchAll writeRes reg (e :: rest)
        = handleEvent writeRes reg e :: dispatchAll writeRes reg rest) := by
  have hc : allowedEvents.contains e.type = true :=
    List.elem_iff.mpr hallow
  have hout : handleEvent writeRes reg e = DispatchOutcome.parseError ∨
      handleEvent writeRes reg e = DispatchOutcome.noGuildId := by
    unfold handleEvent
    rw [if_pos hc]
    rcases hbad with h | ⟨d, hd, hg⟩
    · rw [h]; exact Or.inl rfl
    · rw [hd]; simp [hg]
  rcases hout with h | h <;>
    exact ⟨by rw [h]; rfl, by rw [h]; rfl, fun rest => rfl⟩

/-- Witness for C5 at a concrete allow-listed event with an undecodable
payload. -/
theorem c5_bad_payload_dropped_witness :
    (handleEvent (fun _ => none) [(7, "guild-42")]
        ⟨"MESSAGE_CREATE", none⟩).writes = [] ∧
    (handleEvent (fun _ => none) [(7, "guild-42")]
        ⟨"MESSAGE_CREATE", none⟩).reported = true ∧
    (∀ rest, dispatchAll (fun _ => none) [(7, "guild-42")]
        (⟨"MESSAGE_CREATE", none⟩ :: rest)
      = handleEvent (fun _ => none) [(7, "guild-42")]
          ⟨"MESSAGE_CREATE", none⟩
        :: dispatchAll (fun _ => none) [(7, "guild-42")] rest) :=
  c5_bad_payload_dropped (fun _ => none) [(7, "guild-42")]
    ⟨"MESSAGE_CREATE", none⟩ (by decide) (Or.inl rfl)

/-- Helper: the middleware's locals are `[("ID", id)]` exactly on the
`next id` outcome and empty otherwise. -/
theorem tokenMiddleware_locals (store : TokenStoreM) (header : String) :
    (tokenMiddleware store header).locals =
      (match (tokenMiddleware store header).res with
       | MwResult.next i => [("ID", i)]
       | _ => []) := by
  simp only [tokenMiddleware]
  repeat' split
  all_goals simp_all

/-- C3: when the gate lets a connection through with resolved workspace `id`,
it has bound `id` into the request context under the key `"ID"`, and
immediately after `NewWebSocket`'s registration the registry holds exactly
one entry keyed by that connection handle, mapped to that same `id`. -/
theorem c3_register_exactly_once (store : TokenStoreM) (header : String)
    (id : WorkspaceID) (reg : Registry) (c : Conn)
    (h : (tokenMiddleware store header).res = MwResult.next id) :
    (tokenMiddleware store header).locals = [("ID", id)] ∧
    (registryInsert reg c id).countP (fun en => en.1 == c) = 1 ∧
    registryLookup (registryInsert reg c id) c = some id := by
  refine ⟨?_, ?_, ?_⟩
  · rw [tokenMiddleware_locals, h]
  · simp [registryInsert, List.countP_cons, List.countP_filter]
  · unfold registryLookup registryInsert
    rw [List.find?_cons_of_pos _ (by simp)]
    rfl

/-- Witness for C3 at a concrete store, header, connection and registry. -/
theorem c3_register_exactly_once_witness :
    (tokenMiddleware (some (.ok [("tok-1", "guild-42")])) "Bearer tok-1").locals
      = [("ID", "guild-42")] ∧
    (registryInsert [] 7 "guild-42").countP (fun en => en.1 == 7) = 1 ∧
    registryLookup (registryInsert [] 7 "guild-42") 7 = some "guild-42" :=
  c3_register_exactly_once (some (.ok [("tok-1", "guild-42")])) "Bearer tok-1"
    "guild-42" [] 7 (by decide)

/-- Helper: the read-loop portion of a session trace contains no greeting
writes. -/
theorem loop_no_greet (c : Conn) (reads : List String) :
    ((reads.map (fun m => [TraceEv.read c m, TraceEv.handle m])).flatten).countP
      isGreetWrite = 0 := by
  induction reads with
  | nil => rfl
  | cons m ms ih => simp [List.countP_cons, isGreetWrite, ih]

/-- C9: every session writes the greeting — the plain text
`"You are connected."`, not an envelope — exactly once, before any client
message is read; and when that write fails the connection goes straight to
closing: the read loop is never entered, so no client message is read and
none is dispatched to the message handler. -/
theorem c9_greeting_once (writeRes : Conn → Option String)
    (reads : List String) (reg : Registry) (c : Conn) (id : WorkspaceID) :
    ((runWsSession writeRes reads reg c id).2.countP isGreetWrite = 1) ∧
    (TraceEv.write c (OutMsg.text "You are connected.") (writeRes c).isNone
        ∈ (runWsSession writeRes reads reg c id).2) ∧
    (∃ pre post, (runWsSession writeRes reads reg c id).2 = pre ++ post ∧
        pre.countP isGreetWrite = 1 ∧ pre.countP isReadEv = 0 ∧
        post.countP isGreetWrite = 0) ∧
    ((writeRes c).isSome = true →
      (runWsSession writeRes reads reg c id).2.countP isReadEv = 0 ∧
      (runWsSession writeRes reads reg c id).2.countP isHandleEv = 0 ∧
      TraceEv.readErr c ∉ (runWsSession writeRes reads reg c id).2 ∧
      TraceEv.close c ∈ (runWsSession writeRes reads reg c id).2) := by
  unfold runWsSession
  cases hw : writeRes c with
  | none =>
      simp only [hw, Option.isNone_none, if_true]
      refine ⟨?_, ?_, ?_, ?_⟩
      · rw [List.countP_append, List.countP_append, loop_no_greet]
        simp [List.countP_cons, isGreetWrite]
      · simp
      · refine ⟨[TraceEv.register c id,
            TraceEv.write c (OutMsg.text "You are connected.") true,
            TraceEv.close c],
            (reads.map (fun m => [TraceEv.read c m, TraceEv.handle m])).flatten
              ++ [TraceEv.readErr c, TraceEv.close c, TraceEv.deregister c],
            by simp, ?_, ?_, ?_⟩
        · simp [List.countP_cons, isGreetWrite]
        · simp [List.countP_cons, isReadEv]
        · rw [List.countP_append, loop_no_greet]
          simp [List.countP_cons, isGreetWrite]
      · intro hs
        simp at hs
  | some e =>
      simp only [hw, Option.isNone_some, Bool.false_eq_true, if_false]
      refine ⟨?_, ?_, ?_, ?_⟩
      · simp [List.countP_cons, isGreetWrite]
      · simp
      · exact ⟨[TraceEv.register c id,
            TraceEv.write c (OutMsg.text "You are connected.") false,
            TraceEv.close c], [], by simp,
          by simp [List.countP_cons, isGreetWrite],
          by simp [List.countP_cons, isReadEv], rfl⟩
      · intro _
        refine ⟨?_, ?_, ?_, ?_⟩
        · simp [List.countP_cons, isReadEv]
        · simp [List.countP_cons, isHandleEv]
        · simp
        · simp

/-- Witness for C9 at a concrete connection whose greeting write fails. -/
theorem c9_greeting_once_witness :
    ((fun _ : Conn => (some "broken pipe" : Option String)) 7).isSome = true ∧
    (runWsSession (fun _ => some "broken pipe") ["hello"] [] 7
        "guild-42").2.countP isGreetWrite = 1 ∧
    (runWsSession (fun _ => some "broken pipe") ["hello"] [] 7
        "guild-42").2.countP isReadEv = 0 ∧
    (runWsSession (fun _ => some "broken pipe") ["hello"] [] 7
        "guild-42").2.countP isHandleEv = 0 :=
  ⟨rfl,
   (c9_greeting_once (fun _ => some "broken pipe") ["hello"] [] 7
      "guild-42").1,
   ((c9_greeting_once (fun _ => some "broken pipe") ["hello"] [] 7
      "guild-42").2.2.2 rfl).1,
   ((c9_greeting_once (fun _ => some "broken pipe") ["hello"] [] 7
      "guild-42").2.2.2 rfl).2.1⟩

/-- C1 as stated fails: the header `"Bearer"` is malformed in the spec's
sense (it splits to a single field, no space-separated scheme + credential),
yet with a configured store that loads successfully the gate does not
respond unauthorized — it hits the out-of-range index instead. -/
theorem c1_counterexample :
    (splitAuth "Bearer").length < 2 ∧
    (tokenMiddleware (some (.ok [("tok-1", "guild-42")])) "Bearer").res
      ≠ MwResult.unauthorized := by
  decide

/-- The antecedent of claim C1: the Authorization header is missing or
malformed (no space-separated scheme + credential), or no store is
configured, or the store's `Load()` fails, or the presented credential is
absent from the loaded table (as key and as value, covering both observed
lookup directions). -/
def c1Bad (store : TokenStoreM) (header : String) : Prop :=
  header = "" ∨
  (splitAuth header).getD 0 "" ≠ "Bearer" ∨
  (splitAuth header).length < 2 ∨
  store = none ∨
  store = some (.error ()) ∨
  (∀ tbl, store = some (.ok tbl) →
    ∀ tok, (splitAuth header).get? 1 = some tok →
      tbl.find? (fun kv => kv.1 == tok) = none ∧
      tbl.find? (fun kv => kv.2 == tok) = none)

/-- The one carve-out the counterexample forces: header scheme `Bearer` with
no second field, while a configured store loads successfully — there the
middleware faults instead of responding. -/
def c1Fault (store : TokenStoreM) (header : String) : Prop :=
  (splitAuth header).getD 0 "" = "Bearer" ∧
  (splitAuth header).length < 2 ∧
  ∃ tbl, store = some (Except.ok tbl)

/-- C1 (amended): on every request whose credential resolution should fail —
missing or malformed header, nil store, load error, or credential absent
from the loaded table — the gate responds unauthorized and the next handler
is not invoked (no WorkspaceID is bound), in both middleware variants;
except in the carve-out case `c1Fault` (header exactly the `Bearer` scheme
with no token, store configured and loading), where the gate faults with an
out-of-range index instead (see C2). -/
theorem c1_amended_rejects (store : TokenStoreM) (header : String)
    (h : c1Bad store header) (hx : ¬ c1Fault store header) :
    rejected (tokenMiddleware store header) ∧
    rejected (tokenMiddlewareRev store header) := by
  unfold rejected
  simp only [tokenMiddleware, tokenMiddlewareRev]
  by_cases hb : ((splitAuth header).getD 0 "" == "Bearer")
  · rw [if_pos hb, if_pos hb]
    cases store with
    | none => exact ⟨⟨rfl, rfl⟩, ⟨rfl, rfl⟩⟩
    | some load =>
        cases load with
        | error u => exact ⟨⟨rfl, rfl⟩, ⟨rfl, rfl⟩⟩
        | ok tbl =>
            have hb' : (splitAuth header).getD 0 "" = "Bearer" := by
              simpa using hb
            have hlen : ¬ (splitAuth header).length < 2 := by
              intro hlt
              exact hx ⟨hb', hlt, tbl, rfl⟩
            have hget : ∃ tok, (splitAuth header).get? 1 = some tok := by
              cases hg : (splitAuth header).get? 1 with
              | none =>
                  exact absurd (List.get?_eq_none.mp hg) (by omega)
              | some tok => exact ⟨tok, rfl⟩
            obtain ⟨tok, hg⟩ := hget
            have hfind : tbl.find? (fun kv => kv.1 == tok) = none ∧
                tbl.find? (fun kv => kv.2 == tok) = none := by
              rcases h with h | h | h | h | h | h
              · exact absurd hb' (by subst h; decide)
              · exact absurd hb' h
              · exact absurd h hlen
              · exact Option.noConfusion h
              · exact Except.noConfusion (Option.some.inj h)
              · exact h tbl rfl tok hg
            rw [hg]
            cases tbl with
            | nil => exact ⟨⟨rfl, rfl⟩, ⟨rfl, rfl⟩⟩
            | cons kv rest =>
                simp [hfind.1, hfind.2]
  · rw [if_neg hb, if_neg hb]
    exact ⟨⟨rfl, rfl⟩, ⟨rfl, rfl⟩⟩

/-- Witness for the amended C1: a wrong-scheme header with a configured
store. -/
theorem c1_amended_rejects_witness :
    rejected (tokenMiddleware (some (.ok [("tok-1", "guild-42")]))
      "Basic xyz") ∧
    rejected (tokenMiddlewareRev (some (.ok [("tok-1", "guild-42")]))
      "Basic xyz") :=
  c1_amended_rejects (some (.ok [("tok-1", "guild-42")])) "Basic xyz"
    (Or.inr (Or.inl (by decide)))
    (fun hf => absurd hf.1 (by decide))

end Disgm
